import Mathlib

/-!
Verification of the Audion plugin-registry build pipeline
(`scripts/build-registry.js`) against its specification.

The script is shallowly embedded: JavaScript values that can flow through the
pipeline (decoded JSON documents) are modelled by `JVal`; `undefined` is
modelled by `Option JVal` with `none` standing for `undefined`.  The network
is modelled by an environment that assigns an outcome to each request; the
file system is modelled by a trace of effects.
-/

namespace Audion

/-- A decoded JSON value, as produced by `JSON.parse` (or a raw response body
string when parsing fails).  JavaScript `undefined` is NOT a `JVal`; it is
modelled as `none : Option JVal` where it can occur. -/
inductive JVal where
  | null
  | bool (b : Bool)
  | num (n : Int)
  | str (s : String)
  | arr (elems : List JVal)
  | obj (fields : List (String × JVal))

/-- JavaScript truthiness (`ToBoolean`) restricted to JSON values:
`null`, `false`, `0` and `""` are falsy; every array and object is truthy. -/
def truthy : JVal → Bool
  | .null => false
  | .bool b => b
  | .num n => n != 0
  | .str s => s != ""
  | .arr _ => true
  | .obj _ => true

/-- Truthiness of a possibly-`undefined` value (`undefined` is falsy). -/
def truthyO : Option JVal → Bool
  | none => false
  | some v => truthy v

/-- JavaScript property access `v[key]` on a decoded JSON value, returning
`none` for `undefined`.  On an object, the last binding wins (as in
`JSON.parse`, where a duplicated key is overwritten); on every other value
the (non-numeric) keys used by the script are absent. -/
def getField (v : JVal) (key : String) : Option JVal :=
  match v with
  | .obj fields => fields.foldl (fun acc kv => if kv.1 = key then some kv.2 else acc) none
  | _ => none

/-- `typeof v === 'object'` for JSON values: `null`, arrays and objects. -/
def isObjectTyped : JVal → Bool
  | .null => true
  | .arr _ => true
  | .obj _ => true
  | _ => false

/-- `REQUIRED_FIELDS` from `build-registry.js` line 17, in source order. -/
def REQUIRED_FIELDS : List String := ["name", "version", "author", "type", "entry", "permissions"]

/-- `VALID_TYPES` from `build-registry.js` line 18. -/
def VALID_TYPES : List String := ["js", "wasm"]

/-- `VALID_CATEGORIES` from `build-registry.js` line 19. -/
def VALID_CATEGORIES : List String := ["audio", "ui", "lyrics", "library", "utility"]

/-- `VALID_TYPES.includes(v)`: array `includes` compares with `===`, so only a
string member of the list matches. -/
def isValidTypeVal : Option JVal → Bool
  | some (.str s) => VALID_TYPES.contains s
  | _ => false

/-- `VALID_CATEGORIES.includes(v)`. -/
def isValidCategoryVal : Option JVal → Bool
  | some (.str s) => VALID_CATEGORIES.contains s
  | _ => false

/-- `Array.isArray(v)`. -/
def isArrayVal : Option JVal → Bool
  | some (.arr _) => true
  | _ => false

/-- Rejection reason, one per `return { valid: false, error: ... }` site of
`validateManifest`; the payload is the value interpolated into the error
string at that site. -/
inductive RejectReason where
  | malformedDocument
  | missingField (f : String)
  | invalidType (v : Option JVal)
  | permissionsNotArray
  | invalidCategory (v : Option JVal)

/-- Result of `validateManifest`: `{ valid: true }` or
`{ valid: false, error }`. -/
inductive ValidationResult where
  | accepted
  | rejected (reason : RejectReason)

/-- `validateManifest` (`build-registry.js` lines 80–108), check for check:
1. `!manifest || typeof manifest !== 'object'` → `Invalid JSON`;
2. the loop over `REQUIRED_FIELDS` rejecting on the first field with
   `!manifest[field]` → `Missing required field: f`;
3. `!VALID_TYPES.includes(manifest.type)` → `Invalid type: v`;
4. `!Array.isArray(manifest.permissions)` → `Permissions must be an array`;
5. `manifest.category && !VALID_CATEGORIES.includes(manifest.category)` →
   `Invalid category: v`; otherwise `{ valid: true }`. -/
def validateManifest (manifest : JVal) : ValidationResult :=
  if !truthy manifest || !isObjectTyped manifest then
    .rejected .malformedDocument
  else
    match REQUIRED_FIELDS.find? (fun f => !truthyO (getField manifest f)) with
    | some f => .rejected (.missingField f)
    | none =>
      if !isValidTypeVal (getField manifest "type") then
        .rejected (.invalidType (getField manifest "type"))
      else if !isArrayVal (getField manifest "permissions") then
        .rejected .permissionsNotArray
      else if truthyO (getField manifest "category")
          && !isValidCategoryVal (getField manifest "category") then
        .rejected (.invalidCategory (getField manifest "category"))
      else
        .accepted

/-- One repository descriptor from the GitHub search response, keeping the
fields the script reads (`full_name`, `default_branch`, `html_url`,
`stargazers_count`, `updated_at`, `license`).  `license` is the decoded
`repo.license` value (`none` for `undefined`). -/
structure Repo where
  full_name : String
  default_branch : String
  html_url : String
  stargazers_count : Int
  updated_at : String
  license : Option JVal

/-- `repo.license?.spdx_id`: optional chaining yields `undefined` when
`repo.license` is `undefined` or `null`, and the `spdx_id` property
otherwise. -/
def licenseSpdx (repo : Repo) : Option JVal :=
  match repo.license with
  | none => none
  | some .null => none
  | some v => getField v "spdx_id"

/-- Outcome of one HTTPS request as resolved by `httpsGet`
(lines 21–37): either the response completed — `data` is the body after
the parse-or-keep-raw step of the `end` handler — or the request emitted
an `error` event, which rejects the returned promise. -/
inductive HttpOutcome where
  | response (status : Int) (data : JVal)
  | transportError (msg : String)

/-- The fixed page size carried in the search request path
(`per_page=100` in the query string built by `searchRepos`). -/
def PER_PAGE : Nat := 100

/-- The request path built by `searchRepos` (line 43).  It fixes the topic
and the page size and carries NO `page` parameter. -/
def searchPath : String :=
  "/search/repositories?q=topic:audion-plugins&sort=stars&order=desc&per_page=100"

/-- Modelled GitHub search endpoint: the full topic listing `world` (in the
endpoint's sort order) is served in pages of `PER_PAGE` items; page `p`
(1-based) holds items `(p-1)*PER_PAGE .. p*PER_PAGE - 1`.  A request whose
path has no `page` parameter — such as `searchPath` — is served page 1. -/
def searchPage (world : List Repo) (page : Nat) : List Repo :=
  (world.drop ((page - 1) * PER_PAGE)).take PER_PAGE

/-- `searchRepos` (lines 39–60): issues the single request for `searchPath`
(hence receives page 1 of the listing), throws `GitHub API error` on a
non-200 status, and otherwise returns `response.data.items || []`. -/
def searchRepos (status : Int) (world : List Repo) : Except Int (List Repo) :=
  if status ≠ 200 then .error status else .ok (searchPage world 1)

/-- `fetchPluginManifest` (lines 62–78) given the environment's outcomes for
the successive transport attempts at this item's manifest URL: the function
calls `httpsGet` exactly once, so it consumes only `outcomes 0`.  A transport
error rejects (`Except.error`, the promise rejection crossing the fetcher
boundary); a non-200 status returns `null`; a 200 status returns the decoded
body. -/
def fetchPluginManifest (outcomes : Nat → HttpOutcome) : Except String JVal :=
  match outcomes 0 with
  | .transportError msg => .error msg
  | .response status data => .ok (if status = 200 then data else .null)

/-- The environment of one build: the status of the single discovery
request, the full topic listing held by the search endpoint, the per-repo
sequence of manifest-request outcomes (attempt `k` of a fetch for that repo
would observe `manifestOutcome repo k`; the script only ever makes attempt
0), and the build timestamp `new Date().toISOString()`. -/
structure BuildEnv where
  searchStatus : Int
  world : List Repo
  manifestOutcome : Repo → Nat → HttpOutcome
  now : String

/-- The document the loop body of `buildRegistry` hands to
`validateManifest` for one repo, if any (lines 118–130): the fetched value
when the fetch resolved and the value is truthy; `none` when the fetch
rejected (caught by the per-item `catch`) or resolved to a falsy value
(the `if (!manifest)` skip). -/
def manifestToValidate (outcomes : Nat → HttpOutcome) : Option JVal :=
  match fetchPluginManifest outcomes with
  | .error _ => none
  | .ok m => if truthy m then some m else none

/-- The `manifest` sub-object of a registry entry (lines 136–152), field for
field.  `Option JVal` fields hold `none` where the JavaScript value is
`undefined`. -/
structure EntryManifest where
  name : Option JVal
  version : Option JVal
  author : Option JVal
  description : JVal
  repo : String
  manifest_url : String
  type : Option JVal
  entry : Option JVal
  permissions : Option JVal
  ui_slots : Option JVal
  icon : Option JVal
  homepage : JVal
  category : Option JVal
  tags : Option JVal
  license : Option JVal

/-- One element of the `plugins` array (lines 135–161). -/
structure PluginEntry where
  manifest : EntryManifest
  curated : Bool
  verified : Bool
  repo : String
  manifest_url : String
  stars : Int
  downloads : Int
  lastUpdated : String

/-- JavaScript `a || b` where `a` may be `undefined` and `b` is defined:
`a` when truthy, `b` otherwise. -/
def jsOr (a : Option JVal) (b : JVal) : JVal :=
  match a with
  | some v => if truthy v then v else b
  | none => b

/-- JavaScript `a || b` where both operands may be `undefined`. -/
def jsOrO (a b : Option JVal) : Option JVal :=
  match a with
  | some v => if truthy v then some v else b
  | none => b

/-- The manifest URL string interpolated twice in the entry
(`https://raw.githubusercontent.com/FULL_NAME/BRANCH/plugin.json`). -/
def manifestUrl (repo : Repo) : String :=
  "https://raw.githubusercontent.com/" ++ repo.full_name ++ "/" ++ repo.default_branch
    ++ "/plugin.json"

/-- The entry pushed for an accepted manifest (`plugins.push({...})`,
lines 135–161), field for field. -/
def buildEntry (repo : Repo) (manifest : JVal) : PluginEntry :=
  { manifest :=
      { name := getField manifest "name"
        version := getField manifest "version"
        author := getField manifest "author"
        description := jsOr (getField manifest "description") (.str "")
        repo := repo.html_url
        manifest_url := manifestUrl repo
        type := getField manifest "type"
        entry := getField manifest "entry"
        permissions := getField manifest "permissions"
        ui_slots := getField manifest "ui_slots"
        icon := getField manifest "icon"
        homepage := jsOr (getField manifest "homepage") (.str repo.html_url)
        category := getField manifest "category"
        tags := getField manifest "tags"
        license := jsOrO (getField manifest "license") (licenseSpdx repo) }
    curated := false
    verified := false
    repo := repo.html_url
    manifest_url := manifestUrl repo
    stars := repo.stargazers_count
    downloads := 0
    lastUpdated := repo.updated_at }

/-- One iteration of the `for (const repo of repos)` loop of `buildRegistry`
(lines 117–164): the entry this repo contributes, if any.  A rejected fetch
promise is caught by the per-item `try`/`catch` and contributes nothing; a
falsy manifest is skipped; an invalid manifest is skipped; an accepted one
contributes `buildEntry`. -/
def processRepo (env : BuildEnv) (repo : Repo) : Option PluginEntry :=
  match fetchPluginManifest (env.manifestOutcome repo) with
  | .error _ => none
  | .ok manifest =>
    if truthy manifest then
      match validateManifest manifest with
      | .accepted => some (buildEntry repo manifest)
      | .rejected _ => none
    else none

/-- The whole loop: entries are accumulated by `plugins.push` in repo order,
so the result is the in-order concatenation of the per-repo
contributions. -/
def processAll (env : BuildEnv) (repos : List Repo) : List PluginEntry :=
  repos.filterMap (processRepo env)

/-- The registry object built at lines 168–172. -/
structure Registry where
  version : String
  updated_at : String
  plugins : List PluginEntry

/-- `buildRegistry` (lines 114–187) up to the registry value it returns: a
failed discovery throws (`Except.error`, fatal to the build); otherwise
every discovered repo is processed in order and the accumulated entries are
wrapped with the schema version and build timestamp. -/
def buildRegistry (env : BuildEnv) : Except Int Registry :=
  match searchRepos env.searchStatus env.world with
  | .error s => .error s
  | .ok repos => .ok { version := "1.0.0", updated_at := env.now, plugins := processAll env repos }

/-- A file-system effect of the artifact-writing epilogue. -/
inductive FsOp where
  | mkdirRecursive (dir : String)
  | writeFile (path : String) (contents : String)
  | rename (src : String) (dst : String)
  deriving DecidableEq

/-- `OUTPUT_PATH` (line 14): `path.join(__dirname, '..', 'registry', 'main',
'registry.json')`, i.e. `registry/main/registry.json` under the repository
root. -/
def OUTPUT_PATH : String := "registry/main/registry.json"

/-- `path.dirname(OUTPUT_PATH)` (line 175). -/
def outputDir : String := "registry/main"

/-- The file-system effects of the write phase of `buildRegistry`
(lines 174–181), in order: `fs.mkdirSync(outputDir, { recursive: true })`
when `fs.existsSync(outputDir)` is false, then
`fs.writeFileSync(OUTPUT_PATH, serialized)` — a single direct write of the
serialized registry to the final path. -/
def writeArtifact (outputDirExists : Bool) (serialized : String) : List FsOp :=
  (if outputDirExists then [] else [FsOp.mkdirRecursive outputDir])
    ++ [FsOp.writeFile OUTPUT_PATH serialized]

/-- The atomic-replacement discipline the specification describes for the
Artifact Writer, stated over an effect trace (this definition follows the
spec's words, for comparison with `writeArtifact`): the document is written
to some temporary path distinct from the final one and then moved into
place. -/
def atomicReplaceViaTemp (ops : List FsOp) (finalPath : String) : Prop :=
  ∃ tmp contents, tmp ≠ finalPath ∧ FsOp.writeFile tmp contents ∈ ops
    ∧ FsOp.rename tmp finalPath ∈ ops

/-! Concrete fixtures used by witnesses and counterexamples. -/

/-- A repository descriptor with an MIT license object, as the search
endpoint returns it. -/
def demoRepo : Repo :=
  { full_name := "acme/demo"
    default_branch := "main"
    html_url := "https://github.com/acme/demo"
    stargazers_count := 42
    updated_at := "2024-01-01T00:00:00Z"
    license := some (.obj [("spdx_id", .str "MIT")]) }

/-- A repository whose manifest request will fail at the transport level in
`mixedEnv`. -/
def badRepo : Repo :=
  { full_name := "acme/broken"
    default_branch := "main"
    html_url := "https://github.com/acme/broken"
    stargazers_count := 0
    updated_at := "2024-01-02T00:00:00Z"
    license := none }

/-- A manifest holding exactly the six required fields, all valid. -/
def goodManifest : JVal :=
  .obj [("name", .str "My Plugin"), ("version", .str "1.0.0"), ("author", .str "Acme"),
    ("type", .str "js"), ("entry", .str "index.js"), ("permissions", .arr [.str "player:read"])]

/-- A valid manifest that also carries a present-but-empty `category`. -/
def emptyCategoryManifest : JVal :=
  .obj [("name", .str "My Plugin"), ("version", .str "1.0.0"), ("author", .str "Acme"),
    ("type", .str "js"), ("entry", .str "index.js"), ("permissions", .arr [.str "player:read"]),
    ("category", .str "")]

/-- A valid manifest carrying `category` value outside the valid set. -/
def badCategoryManifest : JVal :=
  .obj [("name", .str "My Plugin"), ("version", .str "1.0.0"), ("author", .str "Acme"),
    ("type", .str "js"), ("entry", .str "index.js"), ("permissions", .arr [.str "player:read"]),
    ("category", .str "music")]

/-- A valid manifest carrying `category` value `audio` from the valid set. -/
def audioCategoryManifest : JVal :=
  .obj [("name", .str "My Plugin"), ("version", .str "1.0.0"), ("author", .str "Acme"),
    ("type", .str "js"), ("entry", .str "index.js"), ("permissions", .arr [.str "player:read"]),
    ("category", .str "audio")]

/-- A manifest with all required fields but a `type` outside `VALID_TYPES`. -/
def badTypeManifest : JVal :=
  .obj [("name", .str "My Plugin"), ("version", .str "1.0.0"), ("author", .str "Acme"),
    ("type", .str "python"), ("entry", .str "index.js"), ("permissions", .arr [.str "player:read"])]

/-- A manifest that carries only a bad `type` with every required field
absent. -/
def typeOnlyManifest : JVal := .obj [("type", .str "python")]

/-- The field list of a manifest holding only a `version`. -/
def versionFields : List (String × JVal) := [("version", .str "1.0.0")]

/-- A valid manifest that supplies a present-but-empty `homepage`. -/
def emptyHomepageManifest : JVal :=
  .obj [("name", .str "My Plugin"), ("version", .str "1.0.0"), ("author", .str "Acme"),
    ("type", .str "js"), ("entry", .str "index.js"), ("permissions", .arr [.str "player:read"]),
    ("homepage", .str "")]

/-- Transport outcomes whose first attempt fails and whose second attempt
would return a valid manifest. -/
def flakyOutcomes : Nat → HttpOutcome :=
  fun n => if n = 0 then .transportError "connection reset" else .response 200 goodManifest

/-- A build environment whose only repo's manifest request fails on the
first attempt and would succeed on a retry. -/
def flakyEnv : BuildEnv :=
  { searchStatus := 200
    world := [demoRepo]
    manifestOutcome := fun _ => flakyOutcomes
    now := "2024-03-01T00:00:00Z" }

/-- A build environment where every manifest request resolves with a valid
manifest. -/
def okEnv : BuildEnv :=
  { searchStatus := 200
    world := [demoRepo]
    manifestOutcome := fun _ _ => .response 200 goodManifest
    now := "2024-03-01T00:00:00Z" }

/-- The registry `buildRegistry` produces in `okEnv`. -/
def okReg : Registry :=
  { version := "1.0.0"
    updated_at := "2024-03-01T00:00:00Z"
    plugins := [buildEntry demoRepo goodManifest] }

/-- A build environment with one good repo and one whose manifest request
fails at the transport level. -/
def mixedEnv : BuildEnv :=
  { searchStatus := 200
    world := [demoRepo, badRepo]
    manifestOutcome := fun r _ =>
      if r.full_name = "acme/broken" then .transportError "timeout"
      else .response 200 goodManifest
    now := "2024-03-01T00:00:00Z" }

/-- The registry `buildRegistry` produces in `mixedEnv`. -/
def mixedReg : Registry :=
  { version := "1.0.0"
    updated_at := "2024-03-01T00:00:00Z"
    plugins := [buildEntry demoRepo goodManifest] }

/-- A build environment whose only repo's manifest request returns status
200 with body `null`. -/
def nullBodyEnv : BuildEnv :=
  { searchStatus := 200
    world := [demoRepo]
    manifestOutcome := fun _ _ => .response 200 .null
    now := "2024-03-01T00:00:00Z" }

/-! Theorems settling the claims. -/

/-- C1 is false as stated: with a listing of 101 repositories the query
spans two pages (the second page is non-empty), yet `searchRepos` — which
issues a single request with no `page` parameter — hands the Assembler only
the 100 items of the first page, not the items of every page. -/
theorem c1_counterexample :
    searchRepos 200 (List.replicate 101 demoRepo) = .ok (List.replicate 100 demoRepo)
    ∧ searchPage (List.replicate 101 demoRepo) 2 = [demoRepo]
    ∧ List.replicate 100 demoRepo ≠ List.replicate 101 demoRepo := by
  refine ⟨?_, ?_, ?_⟩
  · simp [searchRepos, searchPage, PER_PAGE, List.take_replicate]
  · simp [searchPage, PER_PAGE, List.drop_replicate, List.take_replicate]
  · intro h
    have := congrArg List.length h
    simp at this

/-- C1 (amended): `discover` does not paginate: on a 200 status it returns
exactly the first page of the listing — a prefix of at most `PER_PAGE`
(100) items — and therefore every discovered item only when the whole
listing fits in one page. -/
theorem c1_first_page_only (world repos : List Repo)
    (h : searchRepos 200 world = .ok repos) :
    repos.length = min PER_PAGE world.length
    ∧ (∃ rest, repos ++ rest = world)
    ∧ (world.length ≤ PER_PAGE → repos = world) := by
  have hr : repos = searchPage world 1 := by
    simpa [searchRepos] using h.symm
  subst hr
  refine ⟨?_, ⟨world.drop PER_PAGE, ?_⟩, ?_⟩
  · simp [searchPage, List.length_take]
  · simp [searchPage]
  · intro hle
    simp [searchPage, List.take_of_length_le hle]

/-- Witness for `c1_first_page_only` at a one-repo listing. -/
theorem c1_first_page_only_witness :
    ([demoRepo] : List Repo).length = min PER_PAGE ([demoRepo] : List Repo).length
    ∧ (∃ rest, [demoRepo] ++ rest = [demoRepo])
    ∧ (([demoRepo] : List Repo).length ≤ PER_PAGE → [demoRepo] = [demoRepo]) :=
  c1_first_page_only [demoRepo] [demoRepo] rfl

/-- C2 is false as stated: there is no retry loop.  With a transport
failure on the first attempt and a success (carrying a valid manifest)
available on the second, the fetcher surfaces the transport failure —
a fetcher that retried even once with any backoff would have returned the
manifest. -/
theorem c2_counterexample :
    fetchPluginManifest flakyOutcomes = .error "connection reset"
    ∧ flakyOutcomes 1 = .response 200 goodManifest
    ∧ validateManifest goodManifest = .accepted :=
  ⟨rfl, rfl, rfl⟩

/-- C2 (amended): the Fetcher makes exactly one transport attempt per
manifest fetch — its result depends only on attempt 0 — with no retry and
no backoff; a transport-level failure on that single attempt propagates out
of `fetchPluginManifest` as a rejection, which the Assembler's per-item
catch turns into a skip for that item alone. -/
theorem c2_single_attempt :
    (∀ o o' : Nat → HttpOutcome, o 0 = o' 0 → fetchPluginManifest o = fetchPluginManifest o')
    ∧ (∀ (o : Nat → HttpOutcome) (msg : String), o 0 = .transportError msg →
        fetchPluginManifest o = .error msg)
    ∧ (∀ (env : BuildEnv) (repo : Repo) (msg : String),
        env.manifestOutcome repo 0 = .transportError msg → processRepo env repo = none) := by
  refine ⟨?_, ?_, ?_⟩
  · intro o o' h
    simp [fetchPluginManifest, h]
  · intro o msg h
    simp [fetchPluginManifest, h]
  · intro env repo msg h
    simp [processRepo, fetchPluginManifest, h]

/-- Witness for `c2_single_attempt` at the flaky environment. -/
theorem c2_single_attempt_witness :
    fetchPluginManifest flakyOutcomes = .error "connection reset"
    ∧ processRepo flakyEnv demoRepo = none :=
  ⟨c2_single_attempt.2.1 flakyOutcomes "connection reset" rfl,
   c2_single_attempt.2.2 flakyEnv demoRepo "connection reset" rfl⟩

/-- Unfolding of a successful `buildRegistry` run: the plugins of the
returned registry are the in-order contributions of the repos on the first
listing page. -/
lemma buildRegistry_ok_plugins (env : BuildEnv) (reg : Registry)
    (hb : buildRegistry env = .ok reg) :
    reg.plugins = processAll env (searchPage env.world 1) := by
  by_cases hs : env.searchStatus = 200
  · have h : searchRepos env.searchStatus env.world = .ok (searchPage env.world 1) := by
      simp [searchRepos, hs]
    rw [buildRegistry, h] at hb
    cases hb
    rfl
  · have h : searchRepos env.searchStatus env.world = .error env.searchStatus := by
      simp [searchRepos, hs]
    rw [buildRegistry, h] at hb
    cases hb

/-- C3: on every successful build, every RegistryEntry in the plugins
sequence originates from a fetched RawManifest on which the validator
returned Accepted — no entry whose manifest was rejected, absent or falsy
appears in the output. -/
theorem c3_entries_validated (env : BuildEnv) (reg : Registry)
    (hb : buildRegistry env = .ok reg) :
    ∀ e ∈ reg.plugins, ∃ repo m, repo ∈ searchPage env.world 1
      ∧ fetchPluginManifest (env.manifestOutcome repo) = .ok m
      ∧ truthy m = true
      ∧ validateManifest m = .accepted
      ∧ e = buildEntry repo m := by
  intro e he
  rw [buildRegistry_ok_plugins env reg hb] at he
  obtain ⟨repo, hmem, hsome⟩ := List.mem_filterMap.mp he
  refine ⟨repo, ?_⟩
  rcases hf : fetchPluginManifest (env.manifestOutcome repo) with msg | m
  · rw [processRepo, hf] at hsome
    cases hsome
  · rcases ht : truthy m with _ | _
    · simp only [processRepo, hf, ht] at hsome
      simp at hsome
    · rcases hv : validateManifest m with _ | reason
      · simp only [processRepo, hf, ht, hv] at hsome
        simp at hsome
        exact ⟨m, hmem, rfl, ht, hv, hsome.symm⟩
      · simp only [processRepo, hf, ht, hv] at hsome
        simp at hsome

/-- Witness for `c3_entries_validated` in the all-good environment. -/
theorem c3_entries_validated_witness :
    ∃ repo m, repo ∈ searchPage okEnv.world 1
      ∧ fetchPluginManifest (okEnv.manifestOutcome repo) = .ok m
      ∧ truthy m = true
      ∧ validateManifest m = .accepted
      ∧ buildEntry demoRepo goodManifest = buildEntry repo m :=
  c3_entries_validated okEnv okReg rfl (buildEntry demoRepo goodManifest)
    (List.mem_singleton.mpr rfl)

/-- C4: a DiscoveryItem whose manifest fetch rejects at the transport level,
or resolves with a non-200 status (NotFound), contributes zero entries, and
the plugins of a successful build are exactly the contributions of the
remaining items, unaffected by the bad one. -/
theorem c4_bad_item_skipped (env : BuildEnv) (pre post : List Repo) (bad : Repo)
    (reg : Registry)
    (hdisc : searchRepos env.searchStatus env.world = .ok (pre ++ bad :: post))
    (hbad : (∃ msg, env.manifestOutcome bad 0 = .transportError msg)
      ∨ (∃ status data, env.manifestOutcome bad 0 = .response status data ∧ status ≠ 200))
    (hb : buildRegistry env = .ok reg) :
    processRepo env bad = none
    ∧ reg.plugins = processAll env pre ++ processAll env post := by
  have hnone : processRepo env bad = none := by
    rcases hbad with ⟨msg, h⟩ | ⟨status, data, h, hst⟩
    · simp [processRepo, fetchPluginManifest, h]
    · simp [processRepo, fetchPluginManifest, h, hst, truthy]
  have hpage : pre ++ bad :: post = searchPage env.world 1 := by
    rw [searchRepos] at hdisc
    split at hdisc
    · cases hdisc
    · exact (Except.ok.inj hdisc).symm
  refine ⟨hnone, ?_⟩
  rw [buildRegistry_ok_plugins env reg hb, ← hpage]
  simp [processAll, List.filterMap_append, hnone]

/-- Witness for `c4_bad_item_skipped` in the mixed environment. -/
theorem c4_bad_item_skipped_witness :
    processRepo mixedEnv badRepo = none
    ∧ mixedReg.plugins = processAll mixedEnv [demoRepo] ++ processAll mixedEnv [] :=
  c4_bad_item_skipped mixedEnv [demoRepo] [] badRepo mixedReg rfl
    (Or.inl ⟨"timeout", rfl⟩) rfl

/-- C5 is false as stated: the required-field loop runs before the type
check, so a manifest whose `type` is outside `VALID_TYPES` but whose `name`
is absent is rejected with `MissingField`, not `InvalidType` — the type
rejection does depend on the presence of the other fields. -/
theorem c5_counterexample :
    getField typeOnlyManifest "type" = some (.str "python")
    ∧ isValidTypeVal (some (.str "python")) = false
    ∧ validateManifest typeOnlyManifest = .rejected (.missingField "name")
    ∧ validateManifest typeOnlyManifest
        ≠ .rejected (.invalidType (getField typeOnlyManifest "type")) := by
  refine ⟨rfl, rfl, rfl, ?_⟩
  intro h
  rw [show validateManifest typeOnlyManifest = .rejected (.missingField "name") from rfl] at h
  injection h with h'
  injection h'

/-- C5 (amended): for every manifest that passes the mapping-like check and
in which all six required fields are present and truthy, a `type` value
outside `VALID_TYPES` yields `Rejected(InvalidType(value))` regardless of
the validity of the remaining fields (permissions shape, category);
a missing required field instead takes precedence and is reported as
`MissingField`. -/
theorem c5_invalid_type (m : JVal) (h1 : truthy m = true) (h2 : isObjectTyped m = true)
    (hreq : ∀ f ∈ REQUIRED_FIELDS, truthyO (getField m f) = true)
    (ht : isValidTypeVal (getField m "type") = false) :
    validateManifest m = .rejected (.invalidType (getField m "type")) := by
  have hfind : REQUIRED_FIELDS.find? (fun f => !truthyO (getField m f)) = none := by
    rw [List.find?_eq_none]
    intro x hx
    simp [hreq x hx]
  simp [validateManifest, h1, h2, hfind, ht]

/-- Witness for `c5_invalid_type` at a complete manifest of type
`python`. -/
theorem c5_invalid_type_witness :
    validateManifest badTypeManifest = .rejected (.invalidType (getField badTypeManifest "type")) :=
  c5_invalid_type badTypeManifest rfl rfl (by decide) rfl

/-- C6 is false as stated: a manifest that passes the first four checks and
carries a present-but-falsy `category` (here the empty string, which is not
a member of `VALID_CATEGORIES`) is accepted, because the guard
`manifest.category && ...` skips the membership test for falsy values —
the claim demands `Rejected(InvalidCategory(value))` here. -/
theorem c6_counterexample :
    getField emptyCategoryManifest "category" = some (.str "")
    ∧ isValidCategoryVal (some (.str "")) = false
    ∧ validateManifest emptyCategoryManifest = .accepted
    ∧ validateManifest emptyCategoryManifest
        ≠ .rejected (.invalidCategory (getField emptyCategoryManifest "category")) := by
  refine ⟨rfl, rfl, rfl, ?_⟩
  intro h
  rw [show validateManifest emptyCategoryManifest = .accepted from rfl] at h
  injection h

/-- C6 (amended): for every manifest that passes the first four admission
checks, a present and truthy `category` outside `VALID_CATEGORIES` yields
`Rejected(InvalidCategory(value))`; a falsy `category` (absent, empty
string, `null`, `false`, `0`) or a member of the set yields `Accepted`. -/
theorem c6_category_check (m : JVal) (h1 : truthy m = true) (h2 : isObjectTyped m = true)
    (hreq : ∀ f ∈ REQUIRED_FIELDS, truthyO (getField m f) = true)
    (ht : isValidTypeVal (getField m "type") = true)
    (hp : isArrayVal (getField m "permissions") = true) :
    (truthyO (getField m "category") = true → isValidCategoryVal (getField m "category") = false →
        validateManifest m = .rejected (.invalidCategory (getField m "category")))
    ∧ (truthyO (getField m "category") = false → validateManifest m = .accepted)
    ∧ (isValidCategoryVal (getField m "category") = true → validateManifest m = .accepted) := by
  have hfind : REQUIRED_FIELDS.find? (fun f => !truthyO (getField m f)) = none := by
    rw [List.find?_eq_none]
    intro x hx
    simp [hreq x hx]
  refine ⟨?_, ?_, ?_⟩
  · intro hcat hbad
    simp [validateManifest, h1, h2, hfind, ht, hp, hcat, hbad]
  · intro hcat
    simp [validateManifest, h1, h2, hfind, ht, hp, hcat]
  · intro hgood
    simp [validateManifest, h1, h2, hfind, ht, hp, hgood]

/-- Witness for `c6_category_check`: a `music` category is rejected, while
an empty-string and an `audio` category are accepted. -/
theorem c6_category_check_witness :
    validateManifest badCategoryManifest
      = .rejected (.invalidCategory (getField badCategoryManifest "category"))
    ∧ validateManifest emptyCategoryManifest = .accepted
    ∧ validateManifest audioCategoryManifest = .accepted :=
  ⟨(c6_category_check badCategoryManifest rfl rfl (by decide) rfl rfl).1 rfl rfl,
   (c6_category_check emptyCategoryManifest rfl rfl (by decide) rfl rfl).2.1 rfl,
   (c6_category_check audioCategoryManifest rfl rfl (by decide) rfl rfl).2.2 rfl⟩

/-- `find?` returns the first element satisfying the predicate: whenever
some member satisfies it, the found element satisfies it and every element
before it does not. -/
lemma find?_first_of_mem {α : Type} (p : α → Bool) (l : List α) (a : α)
    (ha : a ∈ l) (hpa : p a = true) :
    ∃ g l₁ l₂, l.find? p = some g ∧ p g = true ∧ l = l₁ ++ g :: l₂
      ∧ ∀ c ∈ l₁, p c = false := by
  induction l with
  | nil => cases ha
  | cons x xs ih =>
    by_cases hx : p x = true
    · exact ⟨x, [], xs, List.find?_cons_of_pos _ hx, hx, rfl, by simp⟩
    · have hx' : p x = false := by simpa using hx
      have ha' : a ∈ xs := by
        rcases List.mem_cons.mp ha with h | h
        · subst h
          rw [hpa] at hx'
          cases hx'
        · exact h
      obtain ⟨g, l₁, l₂, hf, hg, hsplit, hall⟩ := ih ha'
      refine ⟨g, x :: l₁, l₂, ?_, hg, by rw [hsplit]; rfl, ?_⟩
      · rw [List.find?_cons_of_neg _ hx]
        exact hf
      · intro c hc
        rcases List.mem_cons.mp hc with h | h
        · rw [h]
          exact hx'
        · exact hall c h

/-- C7: for every mapping-like manifest with at least one required key
missing or falsy, `validate` rejects with `MissingField(g)` where `g` is
the first such key in the fixed `REQUIRED_FIELDS` order: every required
key listed before `g` is present and truthy. -/
theorem c7_first_missing_field (fields : List (String × JVal)) (f : String)
    (hf : f ∈ REQUIRED_FIELDS) (hmiss : truthyO (getField (.obj fields) f) = false) :
    ∃ g l₁ l₂, validateManifest (.obj fields) = .rejected (.missingField g)
      ∧ truthyO (getField (.obj fields) g) = false
      ∧ REQUIRED_FIELDS = l₁ ++ g :: l₂
      ∧ ∀ k ∈ l₁, truthyO (getField (.obj fields) k) = true := by
  obtain ⟨g, l₁, l₂, hfind, hg, hsplit, hall⟩ :=
    find?_first_of_mem (fun x => !truthyO (getField (.obj fields) x)) REQUIRED_FIELDS f hf
      (by simp [hmiss])
  refine ⟨g, l₁, l₂, ?_, ?_, hsplit, ?_⟩
  · simp [validateManifest, truthy, isObjectTyped, hfind]
  · simpa using hg
  · intro k hk
    simpa using hall k hk

/-- Witness for `c7_first_missing_field` at a manifest holding only a
`version`: the first missing field in order is `name`. -/
theorem c7_first_missing_field_witness :
    "name" ∈ REQUIRED_FIELDS
    ∧ ∃ g l₁ l₂, validateManifest (.obj versionFields) = .rejected (.missingField g)
      ∧ truthyO (getField (.obj versionFields) g) = false
      ∧ REQUIRED_FIELDS = l₁ ++ g :: l₂
      ∧ ∀ k ∈ l₁, truthyO (getField (.obj versionFields) k) = true :=
  ⟨by decide, c7_first_missing_field versionFields "name" (by decide) rfl⟩

/-- C8 is false as stated: whether or not the output directory already
exists, the write phase never writes to a temporary location and never
moves a file into place — it does not follow the write-temp-then-rename
discipline the claim describes. -/
theorem c8_counterexample :
    ¬ atomicReplaceViaTemp (writeArtifact true "serialized") OUTPUT_PATH
    ∧ ¬ atomicReplaceViaTemp (writeArtifact false "serialized") OUTPUT_PATH := by
  constructor
  · rintro ⟨tmp, c, hne, hw, hr⟩
    simp [writeArtifact] at hr
  · rintro ⟨tmp, c, hne, hw, hr⟩
    simp [writeArtifact] at hr

/-- C8 (amended): the Artifact Writer replaces the output with a single
direct write: after the optional directory creation, the one and only write
in its effect trace targets `OUTPUT_PATH` itself with the full serialized
document, and no rename occurs — no temporary location is involved, so the
replacement is not atomic against a concurrent reader. -/
theorem c8_direct_write (outputDirExists : Bool) (serialized : String) :
    FsOp.writeFile OUTPUT_PATH serialized ∈ writeArtifact outputDirExists serialized
    ∧ (∀ p c, FsOp.writeFile p c ∈ writeArtifact outputDirExists serialized →
        p = OUTPUT_PATH ∧ c = serialized)
    ∧ (∀ src dst, FsOp.rename src dst ∉ writeArtifact outputDirExists serialized) := by
  cases outputDirExists <;> simp [writeArtifact]

/-- Witness for `c8_direct_write` with the directory already present. -/
theorem c8_direct_write_witness :
    FsOp.writeFile OUTPUT_PATH "doc" ∈ writeArtifact true "doc"
    ∧ FsOp.rename "tmp" OUTPUT_PATH ∉ writeArtifact true "doc" :=
  ⟨(c8_direct_write true "doc").1, (c8_direct_write true "doc").2.2 "tmp" OUTPUT_PATH⟩

/-- C9 is false as stated: a manifest that supplies a present-but-empty
`homepage` does not keep that supplied value — the `||` default replaces
every falsy supplied value with the repository URL. -/
theorem c9_counterexample :
    validateManifest emptyHomepageManifest = .accepted
    ∧ getField emptyHomepageManifest "homepage" = some (.str "")
    ∧ (buildEntry demoRepo emptyHomepageManifest).manifest.homepage
        = .str "https://github.com/acme/demo"
    ∧ (buildEntry demoRepo emptyHomepageManifest).manifest.homepage ≠ .str "" := by
  refine ⟨rfl, rfl, rfl, ?_⟩
  intro h
  rw [show (buildEntry demoRepo emptyHomepageManifest).manifest.homepage
      = JVal.str "https://github.com/acme/demo" from rfl] at h
  injection h with h'
  exact absurd h' (by decide)

/-- C9 (amended): for every accepted manifest the entry defaults are
governed by truthiness, not presence: an absent `description` yields the
empty string, an absent `homepage` yields the repository URL, and an absent
`license` yields the repository's declared SPDX id; a supplied truthy value
is kept; and a supplied falsy value is replaced by the same default as if
the field were absent. -/
theorem c9_defaults (repo : Repo) (m : JVal) (_hacc : validateManifest m = .accepted) :
    ((getField m "description" = none → (buildEntry repo m).manifest.description = .str "")
    ∧ (∀ v, getField m "description" = some v → truthy v = true →
        (buildEntry repo m).manifest.description = v)
    ∧ (∀ v, getField m "description" = some v → truthy v = false →
        (buildEntry repo m).manifest.description = .str ""))
    ∧ ((getField m "homepage" = none →
        (buildEntry repo m).manifest.homepage = .str repo.html_url)
    ∧ (∀ v, getField m "homepage" = some v → truthy v = true →
        (buildEntry repo m).manifest.homepage = v)
    ∧ (∀ v, getField m "homepage" = some v → truthy v = false →
        (buildEntry repo m).manifest.homepage = .str repo.html_url))
    ∧ ((getField m "license" = none →
        (buildEntry repo m).manifest.license = licenseSpdx repo)
    ∧ (∀ v, getField m "license" = some v → truthy v = true →
        (buildEntry repo m).manifest.license = some v)
    ∧ (∀ v, getField m "license" = some v → truthy v = false →
        (buildEntry repo m).manifest.license = licenseSpdx repo)) := by
  refine ⟨⟨?_, ?_, ?_⟩, ⟨?_, ?_, ?_⟩, ⟨?_, ?_, ?_⟩⟩
  · intro h
    simp [buildEntry, jsOr, h]
  · intro v h hv
    simp [buildEntry, jsOr, h, hv]
  · intro v h hv
    simp [buildEntry, jsOr, h, hv]
  · intro h
    simp [buildEntry, jsOr, h]
  · intro v h hv
    simp [buildEntry, jsOr, h, hv]
  · intro v h hv
    simp [buildEntry, jsOr, h, hv]
  · intro h
    simp [buildEntry, jsOrO, h]
  · intro v h hv
    simp [buildEntry, jsOrO, h, hv]
  · intro v h hv
    simp [buildEntry, jsOrO, h, hv]

/-- Witness for `c9_defaults` at a manifest supplying none of the three
optional fields. -/
theorem c9_defaults_witness :
    (buildEntry demoRepo goodManifest).manifest.description = .str ""
    ∧ (buildEntry demoRepo goodManifest).manifest.homepage = .str demoRepo.html_url
    ∧ (buildEntry demoRepo goodManifest).manifest.license = licenseSpdx demoRepo :=
  ⟨(c9_defaults demoRepo goodManifest rfl).1.1 rfl,
   (c9_defaults demoRepo goodManifest rfl).2.1.1 rfl,
   (c9_defaults demoRepo goodManifest rfl).2.2.1 rfl⟩

/-- C10: a manifest fetch that resolves with status 200 and a falsy decoded
body (JSON `null`, `false`, `0`, the empty string, or an empty unparseable
raw body) is treated exactly like NotFound: no document reaches the
validator and the item contributes zero entries. -/
theorem c10_falsy_body_skipped (env : BuildEnv) (repo : Repo) (d : JVal)
    (h : env.manifestOutcome repo 0 = .response 200 d) (hd : truthy d = false) :
    manifestToValidate (env.manifestOutcome repo) = none
    ∧ processRepo env repo = none := by
  constructor
  · simp [manifestToValidate, fetchPluginManifest, h, hd]
  · simp [processRepo, fetchPluginManifest, h, hd]

/-- Witness for `c10_falsy_body_skipped` at a 200 response whose body is
JSON `null`. -/
theorem c10_falsy_body_skipped_witness :
    manifestToValidate (nullBodyEnv.manifestOutcome demoRepo) = none
    ∧ processRepo nullBodyEnv demoRepo = none :=
  c10_falsy_body_skipped nullBodyEnv demoRepo .null rfl rfl

end Audion
